import Mathlib

/-!
Verification of the message-relay logic of the Currency Conversion Expert
service (`src/main.py`).  The relay drives one external-agent invocation to
completion and emits a normalized sequence of events (streaming mode,
`stream_agent_progress` / `POST /stream`) or a single buffered outcome
(buffered mode, `query_agent` / `POST /query`).

Embedding choices:
- The external SDK stream (`query(prompt=..., options=...)`) is modelled as an
  `AgentStream`: a finite list of `AgentMessage` values followed either by
  normal exhaustion (`err = none`) or by the async iterator raising an
  exception whose string form is `e` (`err = some e`).
- Construction of `ClaudeAgentOptions` can itself raise; this is modelled by
  the `optionsErr : Option String` parameter of both run functions
  (`none` = construction succeeds, `some e` = it raises `e`).
- Timestamps (`datetime.datetime.now().isoformat()`) are wall-clock data
  attached to every event and irrelevant to every claim; `RelayEvent` carries
  the payload fields the relay computes and omits the timestamp and the
  constant decorative `message` strings of the `tool_use` / `response` /
  `complete` / `error` payloads.
- Python dict payloads that the relay merely copies (`block.input`,
  `session_id`) are modelled as opaque `String`s; `total_cost_usd` (a Python
  float copied verbatim, never computed with) is modelled as `Rat`.
- `usage_info or {}` : the empty-dict default is modelled by `Option Usage`,
  with `none` standing for the empty mapping.
-/

namespace CurrencyRelay

/-- A content block of an `AssistantMessage`, from `claude_agent_sdk.types`:
`TextBlock`, `ToolUseBlock`, or any other block type (e.g. `ToolResultBlock`),
which the relay inspects with `isinstance` and otherwise ignores. -/
inductive ContentBlock where
  | text (t : String)
  | toolUse (name : String) (input : String)
  | toolResult (payload : String)
  deriving DecidableEq, Repr

/-- A message yielded by the external agent stream: `AssistantMessage` with
its content blocks, `ResultMessage` with the four usage fields read by the
relay, or any other `Message` variant (ignored by both loops). -/
inductive AgentMessage where
  | assistant (content : List ContentBlock)
  | result (duration_ms : Int) (total_cost_usd : Rat) (num_turns : Int) (session_id : String)
  | other
  deriving DecidableEq, Repr

/-- The usage summary dict built from a `ResultMessage`
(src/main.py lines 159-164 and 229-234). -/
structure Usage where
  duration_ms : Int
  total_cost_usd : Rat
  num_turns : Int
  session_id : String
  deriving DecidableEq, Repr

/-- The persona name and role pair embedded in terminal payloads
(`AGENT_CONFIG["name"]`, `AGENT_CONFIG["role"]`). -/
structure AgentInfo where
  name : String
  role : String
  deriving DecidableEq, Repr

/-- `AGENT_CONFIG` name/role as defined in src/main.py lines 43-44. -/
def agent_info : AgentInfo :=
  { name := "Currency Conversion Expert"
    role := "Financial Data Analyst specializing in currency exchange rates" }

/-- A normalized client-facing event produced by `create_event`: the `type`
tag together with the payload fields the relay computes.  `response` carries
the fragment text and the constant `True` passed for the partial marker. -/
inductive RelayEvent where
  | progress (message : String) (status : String)
  | tool_use (tool : String) (input : String)
  | response (content : String) (partFlag : Bool)
  | complete (response : String) (usage : Option Usage) (info : AgentInfo)
  | error (err : String)
  deriving DecidableEq, Repr

/-- The external agent stream: the messages it yields in order, and whether
after them it ends normally (`err = none`) or raises (`err = some e`). -/
structure AgentStream where
  msgs : List AgentMessage
  err : Option String
  deriving DecidableEq, Repr

/-- Result of the streaming `async for` loop (src/main.py lines 139-165):
either it broke at a `ResultMessage` (recording usage) or it exhausted the
yielded messages.  Carries the events yielded and the `response_parts`
accumulator. -/
inductive LoopOut where
  | broke (events : List RelayEvent) (parts : List String) (usage : Usage)
  | ended (events : List RelayEvent) (parts : List String)
  deriving DecidableEq, Repr

/-- The inner `for block in message.content` loop of the streaming mode
(src/main.py lines 141-157): returns the updated `response_parts` and the
events yielded for this message, in order. -/
def process_blocks : List ContentBlock → List String → List String × List RelayEvent
  | [], parts => (parts, [])
  | ContentBlock.text t :: bs, parts =>
      let rest := process_blocks bs (parts ++ [t])
      (rest.1, RelayEvent.response t true :: rest.2)
  | ContentBlock.toolUse n i :: bs, parts =>
      let rest := process_blocks bs parts
      (rest.1, RelayEvent.tool_use n i :: rest.2)
  | ContentBlock.toolResult _ :: bs, parts => process_blocks bs parts

/-- The streaming `async for message in query(...)` loop
(src/main.py lines 139-165), over the messages the stream would yield. -/
def message_loop : List AgentMessage → List String → LoopOut
  | [], parts => LoopOut.ended [] parts
  | AgentMessage.assistant content :: ms, parts =>
      let step := process_blocks content parts
      match message_loop ms step.1 with
      | LoopOut.broke evs p u => LoopOut.broke (step.2 ++ evs) p u
      | LoopOut.ended evs p => LoopOut.ended (step.2 ++ evs) p
  | AgentMessage.result d c n sid :: _, parts =>
      LoopOut.broke [] parts (Usage.mk d c n sid)
  | AgentMessage.other :: ms, parts => message_loop ms parts

/-- `"\n".join(response_parts) if response_parts else "No response received"`
(src/main.py lines 167 and 237). -/
def full_response (parts : List String) : String :=
  if parts.isEmpty then "No response received" else String.intercalate "\n" parts

/-- The first `progress` event (src/main.py lines 116-120; its payload also
repeats the constant agent name). -/
def p_init : RelayEvent :=
  RelayEvent.progress "ü§ñ Starting Currency Conversion Expert..." "initializing"

/-- The second `progress` event (src/main.py lines 130-133). -/
def p_proc : RelayEvent :=
  RelayEvent.progress "üìã Processing your request..." "processing"

/-- Streaming mode: the full event sequence produced by one run of
`stream_agent_progress` (src/main.py lines 102-186), given whether
`ClaudeAgentOptions` construction raises and the external stream. -/
def stream_agent_progress (optionsErr : Option String) (s : AgentStream) :
    List RelayEvent :=
  p_init ::
    match optionsErr with
    | some e => [RelayEvent.error e]
    | none =>
        p_proc ::
          match message_loop s.msgs [] with
          | LoopOut.broke evs parts u =>
              evs ++ [RelayEvent.complete (full_response parts) (some u) agent_info]
          | LoopOut.ended evs parts =>
              match s.err with
              | some e => evs ++ [RelayEvent.error e]
              | none =>
                  evs ++ [RelayEvent.complete (full_response parts) none agent_info]

/-- Result of the buffered `async for` loop (src/main.py lines 223-235). -/
inductive BufLoopOut where
  | broke (parts : List String) (usage : Usage)
  | ended (parts : List String)
  deriving DecidableEq, Repr

/-- The inner block loop of the buffered mode (src/main.py lines 225-227):
only `TextBlock`s are appended; everything else is skipped. -/
def buffered_blocks : List ContentBlock → List String → List String
  | [], parts => parts
  | ContentBlock.text t :: bs, parts => buffered_blocks bs (parts ++ [t])
  | ContentBlock.toolUse _ _ :: bs, parts => buffered_blocks bs parts
  | ContentBlock.toolResult _ :: bs, parts => buffered_blocks bs parts

/-- The buffered `async for message in query(...)` loop
(src/main.py lines 223-235). -/
def buffered_loop : List AgentMessage → List String → BufLoopOut
  | [], parts => BufLoopOut.ended parts
  | AgentMessage.assistant content :: ms, parts =>
      buffered_loop ms (buffered_blocks content parts)
  | AgentMessage.result d c n sid :: _, parts =>
      BufLoopOut.broke parts (Usage.mk d c n sid)
  | AgentMessage.other :: ms, parts => buffered_loop ms parts

/-- The `HTTPException(status_code=500, detail=...)` raised by the buffered
endpoint on failure (src/main.py line 250). -/
structure HTTPError where
  status_code : Nat
  detail : String
  deriving DecidableEq, Repr

/-- The `QueryResponse` model returned by the buffered endpoint
(src/main.py lines 30-34 and 239-247); `usage = none` models the empty
dict `{}`. -/
structure QueryResponse where
  status : String
  response : String
  usage : Option Usage
  agent_info : AgentInfo
  deriving DecidableEq, Repr

/-- Buffered mode: one run of `query_agent` (src/main.py lines 205-250),
returning either the success outcome or the HTTP 500 failure. -/
def query_agent (optionsErr : Option String) (s : AgentStream) :
    Except HTTPError QueryResponse :=
  match optionsErr with
  | some e => Except.error (HTTPError.mk 500 ("Agent execution failed: " ++ e))
  | none =>
      match buffered_loop s.msgs [] with
      | BufLoopOut.broke parts u =>
          Except.ok (QueryResponse.mk "success" (full_response parts) (some u) agent_info)
      | BufLoopOut.ended parts =>
          match s.err with
          | some e =>
              Except.error (HTTPError.mk 500 ("Agent execution failed: " ++ e))
          | none =>
              Except.ok (QueryResponse.mk "success" (full_response parts) none agent_info)

/-! Specification-side observers, written directly over the stream contents;
the theorems connect the run functions above to these. -/

/-- Whether a message is a `ResultMessage`. -/
def is_result : AgentMessage → Bool
  | AgentMessage.result _ _ _ _ => true
  | _ => false

/-- The messages the relay actually consumes: everything up to and including
the first `ResultMessage`, or the whole list if there is none. -/
def consumed_msgs : List AgentMessage → List AgentMessage
  | [] => []
  | AgentMessage.result d c n sid :: _ => [AgentMessage.result d c n sid]
  | m :: ms => m :: consumed_msgs ms

/-- The usage summary recorded from the first `ResultMessage`, if any is
consumed. -/
def first_usage : List AgentMessage → Option Usage
  | [] => none
  | AgentMessage.result d c n sid :: _ => some (Usage.mk d c n sid)
  | _ :: ms => first_usage ms

/-- The texts of the `TextBlock`s of a block list, in order. -/
def texts_of_blocks (bs : List ContentBlock) : List String :=
  bs.flatMap fun b =>
    match b with
    | ContentBlock.text t => [t]
    | _ => []

/-- The texts a message contributes to the response buffer. -/
def msg_texts : AgentMessage → List String
  | AgentMessage.assistant c => texts_of_blocks c
  | _ => []

/-- All fragment texts consumed before termination, in arrival order. -/
def consumed_texts (msgs : List AgentMessage) : List String :=
  (consumed_msgs msgs).flatMap msg_texts

/-- The streaming events one content block gives rise to. -/
def block_events_spec : ContentBlock → List RelayEvent
  | ContentBlock.text t => [RelayEvent.response t true]
  | ContentBlock.toolUse n i => [RelayEvent.tool_use n i]
  | ContentBlock.toolResult _ => []

/-- The streaming events one message gives rise to, in block order. -/
def msg_events_spec : AgentMessage → List RelayEvent
  | AgentMessage.assistant c => c.flatMap block_events_spec
  | _ => []

/-- All stream-derived intermediate events of a run, grouped per consumed
message and in arrival order. -/
def events_spec (msgs : List AgentMessage) : List RelayEvent :=
  (consumed_msgs msgs).flatMap msg_events_spec

/-- Spec-side restatement of the `fullResponse` rule: the consumed fragment
texts joined by newline, or the literal fallback when none was produced. -/
def joined_response (ts : List String) : String :=
  if ts = [] then "No response received" else String.intercalate "\n" ts

/-- Terminal events are `complete` and `error`. -/
def RelayEvent.is_terminal : RelayEvent → Bool
  | RelayEvent.complete _ _ _ => true
  | RelayEvent.error _ => true
  | _ => false

/-- Progress events. -/
def RelayEvent.is_progress : RelayEvent → Bool
  | RelayEvent.progress _ _ => true
  | _ => false

/-- The events yielded from inside the streaming message loop. -/
def loop_events (msgs : List AgentMessage) : List RelayEvent :=
  match message_loop msgs [] with
  | LoopOut.broke evs _ _ => evs
  | LoopOut.ended evs _ => evs

/-! Characterization lemmas: closed forms of the loops and run functions in
terms of the spec-side observers. -/

/-- The streaming block loop appends exactly the fragment texts and yields
exactly the per-block events, in order. -/
theorem process_blocks_eq (bs : List ContentBlock) (parts : List String) :
    process_blocks bs parts =
      (parts ++ texts_of_blocks bs, bs.flatMap block_events_spec) := by
  induction bs generalizing parts with
  | nil => simp [process_blocks, texts_of_blocks]
  | cons b bs ih =>
      cases b <;>
        simp [process_blocks, texts_of_blocks, block_events_spec, ih,
          List.flatMap_cons]

/-- The buffered block loop appends exactly the fragment texts. -/
theorem buffered_blocks_eq (bs : List ContentBlock) (parts : List String) :
    buffered_blocks bs parts = parts ++ texts_of_blocks bs := by
  induction bs generalizing parts with
  | nil => simp [buffered_blocks, texts_of_blocks]
  | cons b bs ih =>
      cases b <;>
        simp [buffered_blocks, texts_of_blocks, ih, List.flatMap_cons]

/-- Closed form of the streaming message loop: it yields the spec events,
accumulates the consumed fragment texts, and records the first usage
summary if one is consumed. -/
theorem message_loop_eq (msgs : List AgentMessage) (parts : List String) :
    message_loop msgs parts =
      match first_usage msgs with
      | some u => LoopOut.broke (events_spec msgs) (parts ++ consumed_texts msgs) u
      | none => LoopOut.ended (events_spec msgs) (parts ++ consumed_texts msgs) := by
  induction msgs generalizing parts with
  | nil =>
      simp [message_loop, first_usage, events_spec, consumed_texts, consumed_msgs]
  | cons m ms ih =>
      cases m with
      | assistant c =>
          simp only [message_loop, process_blocks_eq, ih]
          cases h : first_usage ms <;>
            simp [h, first_usage, events_spec, consumed_texts, consumed_msgs,
              msg_events_spec, msg_texts, List.flatMap_cons, List.append_assoc]
      | result d cu n sid =>
          simp [message_loop, first_usage, events_spec, consumed_texts,
            consumed_msgs, msg_events_spec, msg_texts]
      | other =>
          simp only [message_loop, ih]
          cases h : first_usage ms <;>
            simp [h, first_usage, events_spec, consumed_texts, consumed_msgs,
              msg_events_spec, msg_texts, List.flatMap_cons]

/-- Closed form of the buffered message loop. -/
theorem buffered_loop_eq (msgs : List AgentMessage) (parts : List String) :
    buffered_loop msgs parts =
      match first_usage msgs with
      | some u => BufLoopOut.broke (parts ++ consumed_texts msgs) u
      | none => BufLoopOut.ended (parts ++ consumed_texts msgs) := by
  induction msgs generalizing parts with
  | nil =>
      simp [buffered_loop, first_usage, consumed_texts, consumed_msgs]
  | cons m ms ih =>
      cases m with
      | assistant c =>
          simp only [buffered_loop, buffered_blocks_eq, ih]
          cases h : first_usage ms <;>
            simp [h, first_usage, consumed_texts, consumed_msgs, msg_texts,
              List.flatMap_cons, List.append_assoc]
      | result d cu n sid =>
          simp [buffered_loop, first_usage, consumed_texts, consumed_msgs,
            msg_texts]
      | other =>
          simp only [buffered_loop, ih]
          cases h : first_usage ms <;>
            simp [h, first_usage, consumed_texts, consumed_msgs, msg_texts,
              List.flatMap_cons]

/-- Closed form of a streaming run with successful configuration build. -/
theorem stream_run_closed (s : AgentStream) :
    stream_agent_progress none s =
      p_init :: p_proc ::
        (events_spec s.msgs ++
          match first_usage s.msgs with
          | some u =>
              [RelayEvent.complete (full_response (consumed_texts s.msgs))
                (some u) agent_info]
          | none =>
              match s.err with
              | some e => [RelayEvent.error e]
              | none =>
                  [RelayEvent.complete (full_response (consumed_texts s.msgs))
                    none agent_info]) := by
  simp only [stream_agent_progress, message_loop_eq]
  cases h : first_usage s.msgs <;> cases he : s.err <;> simp

/-- A streaming run whose configuration build fails yields the initial
progress event and then the error event, nothing else. -/
theorem stream_run_optionsErr (e : String) (s : AgentStream) :
    stream_agent_progress (some e) s = [p_init, RelayEvent.error e] := rfl

/-- Closed form of a buffered run with successful configuration build. -/
theorem query_run_closed (s : AgentStream) :
    query_agent none s =
      match first_usage s.msgs with
      | some u =>
          Except.ok (QueryResponse.mk "success"
            (full_response (consumed_texts s.msgs)) (some u) agent_info)
      | none =>
          match s.err with
          | some e =>
              Except.error (HTTPError.mk 500 ("Agent execution failed: " ++ e))
          | none =>
              Except.ok (QueryResponse.mk "success"
                (full_response (consumed_texts s.msgs)) none agent_info) := by
  simp only [query_agent, buffered_loop_eq]
  cases h : first_usage s.msgs <;> cases he : s.err <;> simp

/-- A buffered run whose configuration build fails returns HTTP 500. -/
theorem query_run_optionsErr (e : String) (s : AgentStream) :
    query_agent (some e) s =
      Except.error (HTTPError.mk 500 ("Agent execution failed: " ++ e)) := rfl

/-- Per-block spec events are never terminal and never progress events. -/
theorem block_events_spec_shape (b : ContentBlock) :
    ∀ x ∈ block_events_spec b, x.is_terminal = false ∧ x.is_progress = false := by
  cases b <;> simp [block_events_spec, RelayEvent.is_terminal, RelayEvent.is_progress]

/-- Stream-derived intermediate events are never terminal and never progress
events. -/
theorem events_spec_shape (msgs : List AgentMessage) :
    ∀ x ∈ events_spec msgs, x.is_terminal = false ∧ x.is_progress = false := by
  intro x hx
  simp only [events_spec, List.mem_flatMap] at hx
  obtain ⟨m, _, hm⟩ := hx
  cases m with
  | assistant c =>
      simp only [msg_events_spec, List.mem_flatMap] at hm
      obtain ⟨b, _, hb⟩ := hm
      exact block_events_spec_shape b x hb
  | result d cu n sid => simp [msg_events_spec] at hm
  | other => simp [msg_events_spec] at hm

/-- `full_response` agrees with the spec-side joined response. -/
theorem full_response_eq_joined (ts : List String) :
    full_response ts = joined_response ts := by
  simp [full_response, joined_response, List.isEmpty_iff]

/-- Consuming past a non-result message keeps it and continues. -/
theorem consumed_msgs_cons_not_result (m : AgentMessage) (ms : List AgentMessage)
    (h : is_result m = false) :
    consumed_msgs (m :: ms) = m :: consumed_msgs ms := by
  cases m <;> simp [consumed_msgs, is_result] at h ⊢

/-- A non-result message does not provide the usage summary. -/
theorem first_usage_cons_not_result (m : AgentMessage) (ms : List AgentMessage)
    (h : is_result m = false) :
    first_usage (m :: ms) = first_usage ms := by
  cases m <;> simp [first_usage, is_result] at h ⊢

/-- The usage summary comes from whatever follows a result-free segment. -/
theorem first_usage_append (ms l : List AgentMessage)
    (h : ∀ m ∈ ms, is_result m = false) :
    first_usage (ms ++ l) = first_usage l := by
  induction ms with
  | nil => simp
  | cons m ms ih =>
      have hm : is_result m = false := h m (List.mem_cons_self m ms)
      rw [List.cons_append, first_usage_cons_not_result m _ hm]
      exact ih fun x hx => h x (List.mem_cons_of_mem m hx)

/-- Consumption walks through a result-free segment untouched. -/
theorem consumed_msgs_append (ms l : List AgentMessage)
    (h : ∀ m ∈ ms, is_result m = false) :
    consumed_msgs (ms ++ l) = ms ++ consumed_msgs l := by
  induction ms with
  | nil => simp
  | cons m ms ih =>
      have hm : is_result m = false := h m (List.mem_cons_self m ms)
      rw [List.cons_append, consumed_msgs_cons_not_result m _ hm, List.cons_append]
      rw [ih fun x hx => h x (List.mem_cons_of_mem m hx)]

/-! The claims. -/

/-- C1: For every run, in both streaming and buffered mode, `fullResponse`
equals the texts of all TextFragment blocks consumed before termination,
joined by newline in arrival order; and if no TextFragment was ever produced
before termination, `fullResponse` is exactly the literal string
"No response received".  Runs that reach a `fullResponse` are exactly those
where the external stream does not raise before a ResultSummary; the terminal
`complete` event (streaming) and the success outcome (buffered) both carry
`joined_response (consumed_texts s.msgs)`, which is the newline-join of the
consumed fragment texts and the literal fallback when there are none. -/
theorem claim_C1 (s : AgentStream)
    (h : s.err = none ∨ (first_usage s.msgs).isSome = true) :
    (∃ pre u, stream_agent_progress none s =
        pre ++ [RelayEvent.complete (joined_response (consumed_texts s.msgs)) u agent_info])
    ∧ (∃ u, query_agent none s = Except.ok
        (QueryResponse.mk "success" (joined_response (consumed_texts s.msgs)) u agent_info))
    ∧ (consumed_texts s.msgs = [] →
        joined_response (consumed_texts s.msgs) = "No response received") := by
  rw [← full_response_eq_joined]
  refine ⟨?_, ?_, ?_⟩
  · rw [stream_run_closed]
    cases hu : first_usage s.msgs with
    | some u =>
        exact ⟨p_init :: p_proc :: events_spec s.msgs, some u, by simp⟩
    | none =>
        cases he : s.err with
        | some e =>
            rcases h with h | h
            · rw [he] at h; cases h
            · rw [hu] at h; cases h
        | none =>
            exact ⟨p_init :: p_proc :: events_spec s.msgs, none, by simp⟩
  · rw [query_run_closed]
    cases hu : first_usage s.msgs with
    | some u => exact ⟨some u, rfl⟩
    | none =>
        cases he : s.err with
        | some e =>
            rcases h with h | h
            · rw [he] at h; cases h
            · rw [hu] at h; cases h
        | none => exact ⟨none, rfl⟩
  · intro hnil
    rw [full_response_eq_joined, hnil]
    simp [joined_response]

/-- Witness for C1 at a concrete stream: two fragments "a" and "b" arrive,
then a ResultSummary; the response is "a\nb" in both modes. -/
theorem claim_C1_witness :
    ((AgentStream.mk [AgentMessage.assistant [ContentBlock.text "a"],
        AgentMessage.assistant [ContentBlock.text "b",
          ContentBlock.toolUse "WebSearch" "q"],
        AgentMessage.result 7 0 1 "s1"] none).err = none ∨
      (first_usage (AgentStream.mk [AgentMessage.assistant [ContentBlock.text "a"],
        AgentMessage.assistant [ContentBlock.text "b",
          ContentBlock.toolUse "WebSearch" "q"],
        AgentMessage.result 7 0 1 "s1"] none).msgs).isSome = true)
    ∧ ((∃ pre u, stream_agent_progress none
          (AgentStream.mk [AgentMessage.assistant [ContentBlock.text "a"],
            AgentMessage.assistant [ContentBlock.text "b",
              ContentBlock.toolUse "WebSearch" "q"],
            AgentMessage.result 7 0 1 "s1"] none) =
          pre ++ [RelayEvent.complete
            (joined_response (consumed_texts
              (AgentStream.mk [AgentMessage.assistant [ContentBlock.text "a"],
                AgentMessage.assistant [ContentBlock.text "b",
                  ContentBlock.toolUse "WebSearch" "q"],
                AgentMessage.result 7 0 1 "s1"] none).msgs)) u agent_info])
      ∧ (∃ u, query_agent none
          (AgentStream.mk [AgentMessage.assistant [ContentBlock.text "a"],
            AgentMessage.assistant [ContentBlock.text "b",
              ContentBlock.toolUse "WebSearch" "q"],
            AgentMessage.result 7 0 1 "s1"] none) = Except.ok
          (QueryResponse.mk "success"
            (joined_response (consumed_texts
              (AgentStream.mk [AgentMessage.assistant [ContentBlock.text "a"],
                AgentMessage.assistant [ContentBlock.text "b",
                  ContentBlock.toolUse "WebSearch" "q"],
                AgentMessage.result 7 0 1 "s1"] none).msgs)) u agent_info))
      ∧ (consumed_texts
            (AgentStream.mk [AgentMessage.assistant [ContentBlock.text "a"],
              AgentMessage.assistant [ContentBlock.text "b",
                ContentBlock.toolUse "WebSearch" "q"],
              AgentMessage.result 7 0 1 "s1"] none).msgs = [] →
          joined_response (consumed_texts
            (AgentStream.mk [AgentMessage.assistant [ContentBlock.text "a"],
              AgentMessage.assistant [ContentBlock.text "b",
                ContentBlock.toolUse "WebSearch" "q"],
              AgentMessage.result 7 0 1 "s1"] none).msgs) = "No response received")) :=
  ⟨Or.inl rfl, claim_C1 _ (Or.inl rfl)⟩

/-- C2: For every streaming invocation, exactly one terminal RelayEvent
(kind `complete` or kind `error`) is emitted, and no RelayEvent of any kind
is emitted after it: every run is a list of non-terminal events followed by
one final terminal event. -/
theorem claim_C2 (optionsErr : Option String) (s : AgentStream) :
    ∃ pre t, stream_agent_progress optionsErr s = pre ++ [t]
      ∧ t.is_terminal = true
      ∧ ∀ x ∈ pre, x.is_terminal = false := by
  cases optionsErr with
  | some e =>
      refine ⟨[p_init], RelayEvent.error e, rfl, rfl, ?_⟩
      intro x hx
      simp only [List.mem_singleton] at hx
      subst hx; rfl
  | none =>
      rw [stream_run_closed]
      have hpre : ∀ x ∈ p_init :: p_proc :: events_spec s.msgs,
          RelayEvent.is_terminal x = false := by
        intro x hx
        rcases List.mem_cons.mp hx with h | hx
        · subst h; rfl
        rcases List.mem_cons.mp hx with h | hx
        · subst h; rfl
        · exact (events_spec_shape s.msgs x hx).1
      cases hu : first_usage s.msgs with
      | some u =>
          exact ⟨p_init :: p_proc :: events_spec s.msgs,
            RelayEvent.complete (full_response (consumed_texts s.msgs)) (some u) agent_info,
            by simp, rfl, hpre⟩
      | none =>
          cases he : s.err with
          | some e =>
              exact ⟨p_init :: p_proc :: events_spec s.msgs,
                RelayEvent.error e, by simp, rfl, hpre⟩
          | none =>
              exact ⟨p_init :: p_proc :: events_spec s.msgs,
                RelayEvent.complete (full_response (consumed_texts s.msgs)) none agent_info,
                by simp, rfl, hpre⟩

/-- C7: In streaming mode the content blocks of every AssistantChunk are
processed in order: `block_events_spec` sends each TextFragment to one
`response` event with its text and the partial-true marker and each
ToolInvocation to one `tool_use` event with tool name and input; the events
the loop yields are exactly the flatMap of these per consumed message, so all
events derived from one AssistantChunk precede those derived from the next
message; the whole run is the two progress events, these events, and one
terminal event. -/
theorem claim_C7 (msgs : List AgentMessage) :
    loop_events msgs = (consumed_msgs msgs).flatMap msg_events_spec
    ∧ ∃ t, t.is_terminal = true
        ∧ stream_agent_progress none (AgentStream.mk msgs none) =
            p_init :: p_proc ::
              ((consumed_msgs msgs).flatMap msg_events_spec ++ [t]) := by
  constructor
  · rw [loop_events, message_loop_eq]
    cases hu : first_usage msgs <;> simp [events_spec]
  · rw [stream_run_closed]
    cases hu : first_usage msgs with
    | some u =>
        exact ⟨RelayEvent.complete (full_response (consumed_texts msgs)) (some u) agent_info,
          rfl, by simp [events_spec]⟩
    | none =>
        exact ⟨RelayEvent.complete (full_response (consumed_texts msgs)) none agent_info,
          rfl, by simp [events_spec]⟩

/-- C8: Every buffered run over a stream that ends without raising returns
exactly `{ status := "success", response := full_response, usage := recorded
summary (`none` = the empty mapping when no ResultSummary arrived),
agent_info := persona name and role }`. -/
theorem claim_C8 (msgs : List AgentMessage) :
    query_agent none (AgentStream.mk msgs none) =
      Except.ok (QueryResponse.mk "success"
        (full_response (consumed_texts msgs)) (first_usage msgs) agent_info) := by
  rw [query_run_closed]
  cases hu : first_usage msgs <;> simp

/-- C3: In both modes, upon the first ResultSummary the relay records its
four fields as the usage summary and stops consuming the stream immediately:
whatever the stream would yield after it (further messages `rest`, and
whether it would later raise or end, `err` vs `err2`) is never processed and
has no effect on events, fullResponse, or usage; the streaming run's terminal
`complete` event carries exactly that recorded usage. -/
theorem claim_C3 (ms rest : List AgentMessage) (d : Int) (c : Rat) (n : Int)
    (sid : String) (err err2 : Option String)
    (h : ∀ m ∈ ms, is_result m = false) :
    stream_agent_progress none
        (AgentStream.mk (ms ++ AgentMessage.result d c n sid :: rest) err)
      = stream_agent_progress none
        (AgentStream.mk (ms ++ [AgentMessage.result d c n sid]) err2)
    ∧ query_agent none
        (AgentStream.mk (ms ++ AgentMessage.result d c n sid :: rest) err)
      = query_agent none
        (AgentStream.mk (ms ++ [AgentMessage.result d c n sid]) err2)
    ∧ (∃ pre, stream_agent_progress none
        (AgentStream.mk (ms ++ AgentMessage.result d c n sid :: rest) err)
        = pre ++ [RelayEvent.complete
            (full_response (consumed_texts (ms ++ AgentMessage.result d c n sid :: rest)))
            (some (Usage.mk d c n sid)) agent_info]) := by
  have hu1 : first_usage (ms ++ AgentMessage.result d c n sid :: rest)
      = some (Usage.mk d c n sid) := by
    rw [first_usage_append _ _ h]; rfl
  have hu2 : first_usage (ms ++ [AgentMessage.result d c n sid])
      = some (Usage.mk d c n sid) := by
    rw [first_usage_append _ _ h]; rfl
  have hc1 : consumed_msgs (ms ++ AgentMessage.result d c n sid :: rest)
      = ms ++ [AgentMessage.result d c n sid] := by
    rw [consumed_msgs_append _ _ h]; rfl
  have hc2 : consumed_msgs (ms ++ [AgentMessage.result d c n sid])
      = ms ++ [AgentMessage.result d c n sid] := by
    rw [consumed_msgs_append _ _ h]; rfl
  refine ⟨?_, ?_, ?_⟩
  · rw [stream_run_closed, stream_run_closed]
    simp only [events_spec, consumed_texts, hu1, hu2, hc1, hc2]
  · rw [query_run_closed, query_run_closed]
    simp only [consumed_texts, hu1, hu2, hc1, hc2]
  · rw [stream_run_closed]
    simp only [hu1]
    exact ⟨p_init :: p_proc ::
      events_spec (ms ++ AgentMessage.result d c n sid :: rest), by simp⟩

/-- Witness for C3: one fragment, then a ResultSummary, then a trailing
assistant message and a stream that would raise — the extra tail changes
nothing and the recorded usage is the ResultSummary's. -/
theorem claim_C3_witness :
    (∀ m ∈ [AgentMessage.assistant [ContentBlock.text "x"]], is_result m = false)
    ∧ (stream_agent_progress none
        (AgentStream.mk ([AgentMessage.assistant [ContentBlock.text "x"]] ++
          AgentMessage.result 1200 0 1 "s1" ::
            [AgentMessage.assistant [ContentBlock.text "IGNORED"]]) (some "late boom"))
      = stream_agent_progress none
        (AgentStream.mk ([AgentMessage.assistant [ContentBlock.text "x"]] ++
          [AgentMessage.result 1200 0 1 "s1"]) none)
    ∧ query_agent none
        (AgentStream.mk ([AgentMessage.assistant [ContentBlock.text "x"]] ++
          AgentMessage.result 1200 0 1 "s1" ::
            [AgentMessage.assistant [ContentBlock.text "IGNORED"]]) (some "late boom"))
      = query_agent none
        (AgentStream.mk ([AgentMessage.assistant [ContentBlock.text "x"]] ++
          [AgentMessage.result 1200 0 1 "s1"]) none)
    ∧ (∃ pre, stream_agent_progress none
        (AgentStream.mk ([AgentMessage.assistant [ContentBlock.text "x"]] ++
          AgentMessage.result 1200 0 1 "s1" ::
            [AgentMessage.assistant [ContentBlock.text "IGNORED"]]) (some "late boom"))
        = pre ++ [RelayEvent.complete
            (full_response (consumed_texts
              ([AgentMessage.assistant [ContentBlock.text "x"]] ++
                AgentMessage.result 1200 0 1 "s1" ::
                  [AgentMessage.assistant [ContentBlock.text "IGNORED"]])))
            (some (Usage.mk 1200 0 1 "s1")) agent_info])) :=
  ⟨by decide, claim_C3 _ _ 1200 0 1 "s1" (some "late boom") none (by decide)⟩

/-- C4: In streaming mode, every error — whether raised while building the
configuration (`optionsErr = some e`) or while consuming the stream (the
stream raises `e` before any ResultSummary was consumed) — is caught once at
the top level: a single `error` event carrying the error string is emitted,
the stream then ends, and that error event is the run's only terminal
event. -/
theorem claim_C4 (s : AgentStream) (e : String) (msgs : List AgentMessage)
    (h : first_usage msgs = none) :
    stream_agent_progress (some e) s = [p_init, RelayEvent.error e]
    ∧ ∃ pre, stream_agent_progress none (AgentStream.mk msgs (some e))
        = pre ++ [RelayEvent.error e]
        ∧ ∀ x ∈ pre, x.is_terminal = false := by
  refine ⟨rfl, ?_⟩
  rw [stream_run_closed]
  simp only [h]
  refine ⟨p_init :: p_proc :: events_spec msgs, by simp, ?_⟩
  intro x hx
  rcases List.mem_cons.mp hx with hh | hx
  · subst hh; rfl
  rcases List.mem_cons.mp hx with hh | hx
  · subst hh; rfl
  · exact (events_spec_shape msgs x hx).1

/-- Witness for C4: the stream yields one fragment and then raises; the run
is the two progress events, the one `response` event, then the single
terminal `error` event. -/
theorem claim_C4_witness :
    first_usage [AgentMessage.assistant [ContentBlock.text "t"]] = none
    ∧ (stream_agent_progress (some "cfg fail") (AgentStream.mk [] none)
        = [p_init, RelayEvent.error "cfg fail"]
    ∧ ∃ pre, stream_agent_progress none
        (AgentStream.mk [AgentMessage.assistant [ContentBlock.text "t"]]
          (some "cfg fail"))
        = pre ++ [RelayEvent.error "cfg fail"]
        ∧ ∀ x ∈ pre, x.is_terminal = false) :=
  ⟨rfl, claim_C4 (AgentStream.mk [] none) "cfg fail"
    [AgentMessage.assistant [ContentBlock.text "t"]] rfl⟩

/-- C5: In buffered mode, every error — from configuration building or from
the stream raising before any ResultSummary — yields no partial outcome:
the run fails with HTTP 500 and detail "Agent execution failed: <error>". -/
theorem claim_C5 (s : AgentStream) (e : String) (msgs : List AgentMessage)
    (h : first_usage msgs = none) :
    query_agent (some e) s =
      Except.error (HTTPError.mk 500 ("Agent execution failed: " ++ e))
    ∧ query_agent none (AgentStream.mk msgs (some e)) =
      Except.error (HTTPError.mk 500 ("Agent execution failed: " ++ e)) := by
  refine ⟨rfl, ?_⟩
  rw [query_run_closed]
  simp only [h]

/-- Witness for C5: the stream yields one fragment and then raises "boom";
the buffered endpoint returns HTTP 500 with the formatted detail, and the
same for a configuration-build failure. -/
theorem claim_C5_witness :
    first_usage [AgentMessage.assistant [ContentBlock.text "t"]] = none
    ∧ (query_agent (some "boom") (AgentStream.mk [] none) =
        Except.error (HTTPError.mk 500 ("Agent execution failed: " ++ "boom"))
    ∧ query_agent none
        (AgentStream.mk [AgentMessage.assistant [ContentBlock.text "t"]]
          (some "boom")) =
        Except.error (HTTPError.mk 500 ("Agent execution failed: " ++ "boom"))) :=
  ⟨rfl, claim_C5 (AgentStream.mk [] none) "boom"
    [AgentMessage.assistant [ContentBlock.text "t"]] rfl⟩

/-- The last event of a list ending in a singleton. -/
theorem getLast?_append_singleton {α : Type} (l : List α) (x : α) :
    (l ++ [x]).getLast? = some x := by
  rw [List.getLast?_append_cons]
  rfl

/-- The last event of a run-shaped list: two leading events, a middle
segment, and one final event. -/
theorem getLast?_run_shape (a b : RelayEvent) (l : List RelayEvent)
    (x : RelayEvent) :
    (a :: b :: (l ++ [x])).getLast? = some x := by
  rw [show a :: b :: (l ++ [x]) = (a :: b :: l) ++ [x] by simp,
    getLast?_append_singleton]

/-- C6: Streaming and buffered mode run the identical core algorithm: for
every configuration outcome and every external message stream, whenever the
streaming run's terminal event is `complete` with some response, usage and
agent info, the buffered run over the same stream returns exactly
`{ status := "success" }` with that same response, usage and agent info
(buffered mode merely suppresses the intermediate events). -/
theorem claim_C6 (optionsErr : Option String) (s : AgentStream)
    (pre : List RelayEvent) (resp : String) (u : Option Usage) (info : AgentInfo)
    (h : stream_agent_progress optionsErr s =
      pre ++ [RelayEvent.complete resp u info]) :
    query_agent optionsErr s =
      Except.ok (QueryResponse.mk "success" resp u info) := by
  have hlast := congrArg List.getLast? h
  rw [getLast?_append_singleton] at hlast
  cases optionsErr with
  | some e =>
      rw [stream_run_optionsErr] at hlast
      simp [List.getLast?] at hlast
  | none =>
      rw [stream_run_closed] at hlast
      rw [query_run_closed]
      cases hu : first_usage s.msgs with
      | some u0 =>
          rw [hu] at hlast
          rw [getLast?_run_shape] at hlast
          simp only [Option.some.injEq, RelayEvent.complete.injEq] at hlast
          obtain ⟨h1, h2, h3⟩ := hlast
          subst h2
          subst h3
          simp only [hu, h1]
      | none =>
          rw [hu] at hlast
          cases he : s.err with
          | some e =>
              rw [he] at hlast
              rw [getLast?_run_shape] at hlast
              simp at hlast
          | none =>
              rw [he] at hlast
              rw [getLast?_run_shape] at hlast
              simp only [Option.some.injEq, RelayEvent.complete.injEq] at hlast
              obtain ⟨h1, h2, h3⟩ := hlast
              subst h2
              subst h3
              simp only [hu, he, h1]

/-- Witness for C6 at the spec's scenario (cost rendered as the integral
rational 2 to keep the instance decidable): one fragment "1 USD = 0.92 EUR",
then a ResultSummary (1200, cost, 1, "s1"); the streaming run ends in
`complete` and the buffered outcome carries the same response and usage. -/
theorem claim_C6_witness :
    (stream_agent_progress none
        (AgentStream.mk [AgentMessage.assistant [ContentBlock.text "1 USD = 0.92 EUR"],
          AgentMessage.result 1200 2 1 "s1"] none) =
      [p_init, p_proc, RelayEvent.response "1 USD = 0.92 EUR" true] ++
        [RelayEvent.complete "1 USD = 0.92 EUR"
          (some (Usage.mk 1200 2 1 "s1")) agent_info])
    ∧ query_agent none
        (AgentStream.mk [AgentMessage.assistant [ContentBlock.text "1 USD = 0.92 EUR"],
          AgentMessage.result 1200 2 1 "s1"] none) =
      Except.ok (QueryResponse.mk "success" "1 USD = 0.92 EUR"
        (some (Usage.mk 1200 2 1 "s1")) agent_info) :=
  ⟨by decide,
    claim_C6 none
      (AgentStream.mk [AgentMessage.assistant [ContentBlock.text "1 USD = 0.92 EUR"],
        AgentMessage.result 1200 2 1 "s1"] none)
      [p_init, p_proc, RelayEvent.response "1 USD = 0.92 EUR" true]
      "1 USD = 0.92 EUR" (some (Usage.mk 1200 2 1 "s1")) agent_info (by decide)⟩

/-- C9 counterexample: the claim says configuration is built before any
progress event, so a configuration-build failure would be preceded by no
progress event; but the run whose configuration build fails emits the
initialization `progress` event first and only then the `error` event, so a
progress event does precede the error event. -/
theorem claim_C9_counterexample :
    stream_agent_progress (some "boom") (AgentStream.mk [] none)
      = [p_init, RelayEvent.error "boom"]
    ∧ p_init.is_progress = true :=
  ⟨rfl, rfl⟩

/-- C9 amended: every streaming run emits the initialization `progress`
event first, then builds the configuration; on success it emits the second
`progress` event announcing processing, and no later event of the run is a
progress event (so both precede every stream-derived event); if building the
configuration fails, the initialization progress event is the only event
preceding the terminal `error` event. -/
theorem claim_C9 (s : AgentStream) (e : String) :
    stream_agent_progress (some e) s = [p_init, RelayEvent.error e]
    ∧ ∃ rest, stream_agent_progress none s = p_init :: p_proc :: rest
        ∧ ∀ x ∈ rest, x.is_progress = false := by
  refine ⟨rfl, ?_⟩
  rw [stream_run_closed]
  refine ⟨_, rfl, ?_⟩
  intro x hx
  rcases List.mem_append.mp hx with hx | hx
  · exact (events_spec_shape s.msgs x hx).2
  · cases hu : first_usage s.msgs with
    | some u =>
        rw [hu] at hx
        simp only [List.mem_singleton] at hx
        subst hx; rfl
    | none =>
        rw [hu] at hx
        cases he : s.err with
        | some e2 =>
            rw [he] at hx
            simp only [List.mem_singleton] at hx
            subst hx; rfl
        | none =>
            rw [he] at hx
            simp only [List.mem_singleton] at hx
            subst hx; rfl

/-- Replacing one non-result message by another with the same spec events
and the same fragment texts leaves the three run observables unchanged. -/
theorem relay_congr_msg (m m' : AgentMessage)
    (h1 : msg_events_spec m = msg_events_spec m')
    (h2 : msg_texts m = msg_texts m')
    (h3 : is_result m = false) (h4 : is_result m' = false)
    (pre post : List AgentMessage) :
    first_usage (pre ++ m :: post) = first_usage (pre ++ m' :: post)
    ∧ events_spec (pre ++ m :: post) = events_spec (pre ++ m' :: post)
    ∧ consumed_texts (pre ++ m :: post) = consumed_texts (pre ++ m' :: post) := by
  induction pre with
  | nil =>
      refine ⟨?_, ?_, ?_⟩
      · rw [List.nil_append, List.nil_append,
          first_usage_cons_not_result m post h3,
          first_usage_cons_not_result m' post h4]
      · rw [List.nil_append, List.nil_append]
        unfold events_spec
        rw [consumed_msgs_cons_not_result m post h3,
          consumed_msgs_cons_not_result m' post h4]
        simp [List.flatMap_cons, h1]
      · rw [List.nil_append, List.nil_append]
        unfold consumed_texts
        rw [consumed_msgs_cons_not_result m post h3,
          consumed_msgs_cons_not_result m' post h4]
        simp [List.flatMap_cons, h2]
  | cons p pre ih =>
      obtain ⟨ih1, ih2, ih3⟩ := ih
      cases hp : is_result p with
      | true =>
          cases p with
          | result d c n sid =>
              refine ⟨?_, ?_, ?_⟩ <;>
                simp [first_usage, events_spec, consumed_texts, consumed_msgs,
                  List.cons_append]
          | assistant c => simp [is_result] at hp
          | other => simp [is_result] at hp
      | false =>
          refine ⟨?_, ?_, ?_⟩
          · rw [List.cons_append, List.cons_append,
              first_usage_cons_not_result p _ hp,
              first_usage_cons_not_result p _ hp, ih1]
          · unfold events_spec
            rw [List.cons_append, List.cons_append,
              consumed_msgs_cons_not_result p _ hp,
              consumed_msgs_cons_not_result p _ hp]
            simp only [List.flatMap_cons]
            rw [show ((consumed_msgs (pre ++ m :: post)).flatMap msg_events_spec)
                = events_spec (pre ++ m :: post) from rfl,
              show ((consumed_msgs (pre ++ m' :: post)).flatMap msg_events_spec)
                = events_spec (pre ++ m' :: post) from rfl, ih2]
          · unfold consumed_texts
            rw [List.cons_append, List.cons_append,
              consumed_msgs_cons_not_result p _ hp,
              consumed_msgs_cons_not_result p _ hp]
            simp only [List.flatMap_cons]
            rw [show ((consumed_msgs (pre ++ m :: post)).flatMap msg_texts)
                = consumed_texts (pre ++ m :: post) from rfl,
              show ((consumed_msgs (pre ++ m' :: post)).flatMap msg_texts)
                = consumed_texts (pre ++ m' :: post) from rfl, ih3]

/-- C10: In both modes, a content block that is neither a TextFragment nor a
ToolInvocation (here a tool-result block) is silently skipped: wherever it
sits inside an AssistantChunk, the whole run — events, fullResponse, usage —
is identical to the run on the same stream with that block removed. -/
theorem claim_C10 (payload : String) (bs1 bs2 : List ContentBlock)
    (pre post : List AgentMessage) (err : Option String) :
    stream_agent_progress none (AgentStream.mk
        (pre ++ AgentMessage.assistant
          (bs1 ++ ContentBlock.toolResult payload :: bs2) :: post) err)
      = stream_agent_progress none (AgentStream.mk
        (pre ++ AgentMessage.assistant (bs1 ++ bs2) :: post) err)
    ∧ query_agent none (AgentStream.mk
        (pre ++ AgentMessage.assistant
          (bs1 ++ ContentBlock.toolResult payload :: bs2) :: post) err)
      = query_agent none (AgentStream.mk
        (pre ++ AgentMessage.assistant (bs1 ++ bs2) :: post) err) := by
  have h1 : msg_events_spec (AgentMessage.assistant
        (bs1 ++ ContentBlock.toolResult payload :: bs2))
      = msg_events_spec (AgentMessage.assistant (bs1 ++ bs2)) := by
    simp [msg_events_spec, List.flatMap_append, List.flatMap_cons, block_events_spec]
  have h2 : msg_texts (AgentMessage.assistant
        (bs1 ++ ContentBlock.toolResult payload :: bs2))
      = msg_texts (AgentMessage.assistant (bs1 ++ bs2)) := by
    simp [msg_texts, texts_of_blocks, List.flatMap_append, List.flatMap_cons]
  obtain ⟨hu, hev, htx⟩ := relay_congr_msg _ _ h1 h2 rfl rfl pre post
  constructor
  · rw [stream_run_closed, stream_run_closed]
    simp only [hu, hev, htx]
  · rw [query_run_closed, query_run_closed]
    simp only [hu, htx]

end CurrencyRelay
